import Mathlib

/-!
A shallow embedding of `src/Scripts/generate_multi_tenor.py`, a script that
reads a base option-pricing result (forward, strikes, SVI curve parameters),
re-evaluates the SVI total-variance curve for a new tenor, and emits a
synthetic fixture record.

Python floats are modelled as real numbers.  Python runtime exceptions
(KeyError on a missing mandatory key, TypeError on subscripting None,
ZeroDivisionError on float division by zero, ValueError / "math domain
error" from `math.sqrt` and `math.log`) are modelled by an `Except PyErr`
result: returning `Except.error` corresponds to the script aborting before
the output file for that tenor is written, and `Except.ok out` corresponds
to the record `out` being serialized to the output file.

JSON records are modelled structurally: an optional field is an `Option`.
A present `svi_params`/`svi` record is modelled as a full five-field
parameter record (per the input format, all five numeric fields are
present when the key is), hence truthy in Python's sense; a present
numeric field carries its real value, and Python's number truthiness
(`0.0` is falsy) is modelled explicitly where the source relies on it.
-/

/-- Errors a run of `generate_tenor` can raise before writing its output. -/
inductive PyErr where
  | keyError : PyErr
  | typeError : PyErr
  | zeroDivisionError : PyErr
  | domainError : PyErr
deriving DecidableEq, Repr

/-- Python float division: `x / y` raises `ZeroDivisionError` when `y == 0`. -/
noncomputable def pyDiv (x y : ℝ) : Except PyErr ℝ :=
  if y = 0 then Except.error PyErr.zeroDivisionError else Except.ok (x / y)

/-- Python `math.sqrt`: raises a math domain error on negative input. -/
noncomputable def pySqrt (x : ℝ) : Except PyErr ℝ :=
  if x < 0 then Except.error PyErr.domainError else Except.ok (Real.sqrt x)

/-- Python `math.log`: raises a math domain error on nonpositive input. -/
noncomputable def pyLog (x : ℝ) : Except PyErr ℝ :=
  if x ≤ 0 then Except.error PyErr.domainError else Except.ok (Real.log x)

/-- The SVI curve parameters `p` of the script: fields `a`, `b`, `rho`,
`m`, `sigma` (level, slope, correlation, location, curvature). -/
structure SviParams where
  a : ℝ
  b : ℝ
  rho : ℝ
  m : ℝ
  sigma : ℝ

/-- `svi_w(k, p)` from the source: total variance
`p["a"] + p["b"] * (p["rho"] * x + math.sqrt(x * x + p["sigma"] * p["sigma"]))`
with `x = k - p["m"]`. -/
noncomputable def svi_w (k : ℝ) (p : SviParams) : ℝ :=
  p.a + p.b * (p.rho * (k - p.m) + Real.sqrt ((k - p.m) * (k - p.m) + p.sigma * p.sigma))

/-- The base-result JSON record, structurally: each key the script consults
is an optional field.  `strikes` elements and numeric fields are reals. -/
structure BaseResult where
  forward : Option ℝ
  F : Option ℝ
  strikes : Option (List ℝ)
  svi_params : Option SviParams
  svi : Option SviParams
  df : Option ℝ

/-- Line 21 of the source: `F = float(base.get("forward") or base["F"])`.
`base.get` returns `None` on a missing key; Python `or` takes the right
operand when the left is falsy (`None`, or the float `0.0`); `base["F"]`
raises `KeyError` when the key is absent. -/
noncomputable def getForwardF (base : BaseResult) : Except PyErr ℝ :=
  match base.forward with
  | some v =>
      if v = 0 then
        match base.F with
        | some w => Except.ok w
        | none => Except.error PyErr.keyError
      else Except.ok v
  | none =>
      match base.F with
      | some w => Except.ok w
      | none => Except.error PyErr.keyError

/-- Line 22 of the source: `T_new = tenor_days / 365.0`. -/
noncomputable def tenorToYears (tenor_days : ℤ) : ℝ :=
  (tenor_days : ℝ) / 365

/-- Line 23 of the source: `Ks = [float(k) for k in base["strikes"]]`;
indexing a missing key raises `KeyError`. -/
def getStrikes (base : BaseResult) : Except PyErr (List ℝ) :=
  match base.strikes with
  | some ks => Except.ok ks
  | none => Except.error PyErr.keyError

/-- Lines 25-32 of the source: `p_in = base.get("svi_params") or base.get("svi")`
followed by extraction of the five float fields.  When both keys are absent,
`p_in` is `None` and `p_in["a"]` raises `TypeError`.  A present key carries a
full parameter record (nonempty, hence truthy). -/
def getParams (base : BaseResult) : Except PyErr SviParams :=
  match base.svi_params with
  | some p => Except.ok p
  | none =>
      match base.svi with
      | some p => Except.ok p
      | none => Except.error PyErr.typeError

/-- Lines 38-39 of the source, after log-moneyness `k` is known:
`w = max(1e-12, svi_w(k, p))` then `math.sqrt(w / T_new)`. -/
noncomputable def ivOfK (p : SviParams) (T_new k : ℝ) : Except PyErr ℝ :=
  match pyDiv (max 1e-12 (svi_w k p)) T_new with
  | Except.error e => Except.error e
  | Except.ok q => pySqrt q

/-- Lines 37-39 of the source, one loop iteration for strike `K`:
`k = math.log(K / F)` then the floored-variance implied vol. -/
noncomputable def computeIV (F T_new : ℝ) (p : SviParams) (K : ℝ) : Except PyErr ℝ :=
  match pyDiv K F with
  | Except.error e => Except.error e
  | Except.ok r =>
      match pyLog r with
      | Except.error e => Except.error e
      | Except.ok k => ivOfK p T_new k

/-- Lines 35-39 of the source: the `for K in Ks` loop appending one implied
vol per strike, aborting at the first raised exception. -/
noncomputable def computeIVs (F T_new : ℝ) (p : SviParams) : List ℝ → Except PyErr (List ℝ)
  | [] => Except.ok []
  | K :: rest =>
      match computeIV F T_new p K with
      | Except.error e => Except.error e
      | Except.ok iv =>
          match computeIVs F T_new p rest with
          | Except.error e => Except.error e
          | Except.ok ivs => Except.ok (iv :: ivs)

/-- Python `str.replace(pat, rep)` on character lists: replaces every
non-overlapping occurrence of `pat`, scanning left to right.  The fuel
argument bounds the recursion and is instantiated with the string length,
which suffices for a nonempty pattern. -/
def replaceAux (pat rep : List Char) : Nat → List Char → List Char
  | 0, s => s
  | _ + 1, [] => []
  | fuel + 1, c :: rest =>
      if pat.isPrefixOf (c :: rest) then
        rep ++ replaceAux pat rep fuel (List.drop pat.length (c :: rest))
      else
        c :: replaceAux pat rep fuel rest

/-- Python `s.replace(pat, rep)` for a nonempty pattern. -/
def pyReplace (s pat rep : List Char) : List Char :=
  replaceAux pat rep s.length s

/-- The characters of the decimal rendering of an integer, as produced by a
Python f-string (`-` sign for negatives, digits otherwise). -/
def intChars (d : ℤ) : List Char :=
  if d < 0 then '-' :: Nat.toDigits 10 d.natAbs else Nat.toDigits 10 d.toNat

/-- The substring removed from the base file stem, `"_result"`. -/
def patResult : List Char := String.data "_result"

/-- The synthetic-tenor tag appended to the stripped stem:
`"_synthetic_" + str(tenor_days) + "d"`. -/
def syntheticTag (tenor_days : ℤ) : List Char :=
  String.data "_synthetic_" ++ intChars tenor_days ++ ['d']

/-- Line 42 of the source:
`fixture_id = base_path.stem.replace("_result", "") + f"_synthetic_{tenor_days}d"`. -/
def mkFixtureId (stem : List Char) (tenor_days : ℤ) : List Char :=
  pyReplace stem patResult [] ++ syntheticTag tenor_days

/-- The output record `out` of lines 44-52 of the source. -/
structure Fixture where
  fixtureId : List Char
  forward : ℝ
  T : ℝ
  strikes : List ℝ
  svi_params : SviParams
  ivs : List ℝ
  df : ℝ

/-- `generate_tenor(base_path, tenor_days, output_dir)`: the whole
computation of the script up to the point where the output record is
serialized.  `stem` is `base_path.stem`.  `Except.ok out` means the record
`out` is written to the output file; `Except.error e` means the Python
exception `e` is raised first and no file is written for this tenor. -/
noncomputable def generate_tenor (stem : List Char) (base : BaseResult) (tenor_days : ℤ) :
    Except PyErr Fixture :=
  match getForwardF base with
  | Except.error e => Except.error e
  | Except.ok F =>
      match getStrikes base with
      | Except.error e => Except.error e
      | Except.ok Ks =>
          match getParams base with
          | Except.error e => Except.error e
          | Except.ok p =>
              match computeIVs F (tenorToYears tenor_days) p Ks with
              | Except.error e => Except.error e
              | Except.ok ivs =>
                  Except.ok {
                    fixtureId := mkFixtureId stem tenor_days
                    forward := F
                    T := tenorToYears tenor_days
                    strikes := Ks
                    svi_params := p
                    ivs := ivs
                    df := base.df.getD 1 }

/-- Line 55 of the source: the output file name `f"{fixture_id}_result.json"`. -/
def outputFileName (stem : List Char) (tenor_days : ℤ) : List Char :=
  mkFixtureId stem tenor_days ++ String.data "_result.json"

/-- Whether an `Except` result is a success. -/
def exceptIsOk {ε α : Type} : Except ε α → Bool
  | Except.ok _ => true
  | Except.error _ => false

/-! ### Shared concrete values used by witnesses -/

/-- A degenerate but valid parameter record: level 1, slope 0. -/
def pUnit : SviParams := ⟨1, 0, 0, 0, 0⟩

/-- A well-formed base result: `forward` 100, one strike 100, `svi_params`
present, `F`, `svi` and `df` absent. -/
def baseEx : BaseResult := ⟨some 100, none, some [100], some pUnit, none, none⟩

/-- The stem of a typical base file, `btc_result`. -/
def stemEx : List Char := String.data "btc_result"

/-! ### Helper lemmas -/

theorem replaceAux_nil (pat rep : List Char) (fuel : Nat) :
    replaceAux pat rep fuel [] = [] := by
  cases fuel <;> rfl

/-! ### C1 -/

/-- C1: for every parameter record and log-moneyness `k`, `svi_w` returns
exactly `a + b * (rho * (k - m) + sqrt((k - m)^2 + sigma^2))`, as a
closed-form expression. -/
theorem svi_w_closed_form (k : ℝ) (p : SviParams) :
    svi_w k p = p.a + p.b * (p.rho * (k - p.m) + Real.sqrt ((k - p.m) ^ 2 + p.sigma ^ 2)) := by
  simp [svi_w, pow_two]

/-! ### C6 -/

/-- C6 fails as stated: with curvature `sigma = -1` (a real, per the data
model), the square-root term reduces to `|sigma| = 1`, not `sigma`, so the
value at `k = m` is `a + b * |sigma| ≠ a + b * sigma`. -/
theorem svi_w_at_location_cex :
    svi_w (SviParams.m ⟨0, 1, 0, 0, -1⟩) ⟨0, 1, 0, 0, -1⟩ ≠
      SviParams.a ⟨0, 1, 0, 0, -1⟩ +
        SviParams.b ⟨0, 1, 0, 0, -1⟩ * SviParams.sigma ⟨0, 1, 0, 0, -1⟩ := by
  simp [svi_w]
  norm_num

/-- C6 amended: when the curvature parameter is nonnegative, the curve
evaluation at `k = m` returns `a + b * sigma`. -/
theorem svi_w_at_location (p : SviParams) (h : 0 ≤ p.sigma) :
    svi_w p.m p = p.a + p.b * p.sigma := by
  unfold svi_w
  rw [sub_self]
  simp [Real.sqrt_mul_self h]

/-- Witness for `svi_w_at_location` at the record `(2, 3, 5, 7, 11)`. -/
theorem svi_w_at_location_witness :
    svi_w 7 ⟨2, 3, 5, 7, 11⟩ = 2 + 3 * 11 :=
  svi_w_at_location ⟨2, 3, 5, 7, 11⟩ (by norm_num)

/-! ### C2 -/

/-- C2: for a strike whose total variance comes out nonpositive, the value
actually used is the floor `1e-12`, and for a positive time-to-expiry the
square root is taken of a positive quantity, so the implied-vol step
succeeds and never raises a domain error. -/
theorem iv_floor_guard (p : SviParams) (T k : ℝ) (hT : 0 < T) (hw : svi_w k p ≤ 0) :
    max 1e-12 (svi_w k p) = 1e-12 ∧
    ivOfK p T k = Except.ok (Real.sqrt ((1e-12 : ℝ) / T)) := by
  have hm : max (1e-12 : ℝ) (svi_w k p) = 1e-12 :=
    max_eq_left (le_trans hw (by norm_num))
  refine ⟨hm, ?_⟩
  unfold ivOfK
  rw [hm]
  unfold pyDiv
  rw [if_neg (ne_of_gt hT)]
  show pySqrt ((1e-12 : ℝ) / T) = Except.ok (Real.sqrt ((1e-12 : ℝ) / T))
  unfold pySqrt
  rw [if_neg (not_lt.mpr (le_of_lt (div_pos (by norm_num) hT)))]

/-- Witness for `iv_floor_guard`: parameters with level `-1` and slope `0`
give total variance `-1 ≤ 0` at `k = 0`; with `T = 1` the step returns the
vol computed from the floored variance. -/
theorem iv_floor_guard_witness :
    max 1e-12 (svi_w 0 ⟨-1, 0, 0, 0, 0⟩) = 1e-12 ∧
    ivOfK ⟨-1, 0, 0, 0, 0⟩ 1 0 = Except.ok (Real.sqrt ((1e-12 : ℝ) / 1)) :=
  iv_floor_guard ⟨-1, 0, 0, 0, 0⟩ 1 0 (by norm_num) (by simp [svi_w])

/-! ### C9 -/

/-- C9: the generation operation is a pure function of the base record and
the tenor: two runs on equal inputs produce equal output records and write
to the same output file name. -/
theorem generate_tenor_deterministic (stem : List Char) (b1 b2 : BaseResult) (t1 t2 : ℤ)
    (hb : b1 = b2) (ht : t1 = t2) :
    generate_tenor stem b1 t1 = generate_tenor stem b2 t2 ∧
    outputFileName stem t1 = outputFileName stem t2 := by
  subst hb
  subst ht
  exact ⟨rfl, rfl⟩

/-- Witness for `generate_tenor_deterministic` on the example base. -/
theorem generate_tenor_deterministic_witness :
    generate_tenor stemEx baseEx 14 = generate_tenor stemEx baseEx 14 ∧
    outputFileName stemEx 14 = outputFileName stemEx 14 :=
  generate_tenor_deterministic stemEx baseEx baseEx 14 14 rfl rfl

/-! ### Inversion helpers for successful runs -/

theorem computeIVs_ok (F T : ℝ) (p : SviParams) :
    ∀ (Ks ivs : List ℝ), computeIVs F T p Ks = Except.ok ivs →
      ivs.length = Ks.length ∧
      ∀ i (h1 : i < Ks.length) (h2 : i < ivs.length),
        computeIV F T p (Ks.get ⟨i, h1⟩) = Except.ok (ivs.get ⟨i, h2⟩)
  | [], ivs, h => by
      unfold computeIVs at h
      cases h
      exact ⟨rfl, by intro i h1 _; exact absurd h1 (Nat.not_lt_zero i)⟩
  | K :: rest, ivs, h => by
      unfold computeIVs at h
      cases hIV : computeIV F T p K <;> rw [hIV] at h
      · exact absurd h (by simp)
      case ok iv =>
      cases hrest : computeIVs F T p rest <;> rw [hrest] at h
      · exact absurd h (by simp)
      case ok tl =>
      cases h
      obtain ⟨hlen, hget⟩ := computeIVs_ok F T p rest tl hrest
      refine ⟨by simp [hlen], ?_⟩
      intro i h1 h2
      cases i with
      | zero => exact hIV
      | succ j =>
          exact hget j (Nat.lt_of_succ_lt_succ h1) (Nat.lt_of_succ_lt_succ h2)

theorem generate_tenor_ok (stem : List Char) (base : BaseResult) (d : ℤ) (out : Fixture)
    (h : generate_tenor stem base d = Except.ok out) :
    ∃ F Ks p ivs,
      getForwardF base = Except.ok F ∧ getStrikes base = Except.ok Ks ∧
      getParams base = Except.ok p ∧
      computeIVs F (tenorToYears d) p Ks = Except.ok ivs ∧
      out = ⟨mkFixtureId stem d, F, tenorToYears d, Ks, p, ivs, base.df.getD 1⟩ := by
  unfold generate_tenor at h
  split at h
  · exact absurd h (by simp)
  next F hF =>
  split at h
  · exact absurd h (by simp)
  next Ks hK =>
  split at h
  · exact absurd h (by simp)
  next p hP =>
  split at h
  · exact absurd h (by simp)
  next ivs hI =>
  cases h
  exact ⟨F, Ks, p, ivs, hF, hK, hP, hI, rfl⟩

/-! ### C3 -/

/-- C3: a successful run emits a fixture whose strike list is the base's
strike list unchanged (same order), whose `ivs` list has the same length,
and whose `i`-th implied vol is computed from the `i`-th strike. -/
theorem generate_tenor_parallel (stem : List Char) (base : BaseResult) (d : ℤ) (out : Fixture)
    (h : generate_tenor stem base d = Except.ok out) :
    base.strikes = some out.strikes ∧
    out.ivs.length = out.strikes.length ∧
    ∀ i (h1 : i < out.strikes.length) (h2 : i < out.ivs.length),
      computeIV out.forward out.T out.svi_params (out.strikes.get ⟨i, h1⟩) =
        Except.ok (out.ivs.get ⟨i, h2⟩) := by
  obtain ⟨F, Ks, p, ivs, hF, hK, hP, hI, hout⟩ := generate_tenor_ok stem base d out h
  subst hout
  refine ⟨?_, ?_, ?_⟩
  · unfold getStrikes at hK
    cases hs : base.strikes <;> rw [hs] at hK
    · exact absurd hK (by simp)
    · cases hK; rfl
  · exact (computeIVs_ok F (tenorToYears d) p Ks ivs hI).1
  · exact (computeIVs_ok F (tenorToYears d) p Ks ivs hI).2

/-! ### A concrete successful run, shared by several witnesses -/

/-- The fixture `generate_tenor` produces from `baseEx` at tenor 365. -/
def fixEx : Fixture := ⟨String.data "btc_synthetic_365d", 100, 1, [100], pUnit, [1], 1⟩

theorem computeIV_eval (F T : ℝ) (p : SviParams) (K : ℝ) (hF : F ≠ 0) (hKF : 0 < K / F)
    (hT : T ≠ 0) (hq : ¬ max 1e-12 (svi_w (Real.log (K / F)) p) / T < 0) :
    computeIV F T p K =
      Except.ok (Real.sqrt (max 1e-12 (svi_w (Real.log (K / F)) p) / T)) := by
  unfold computeIV pyDiv
  rw [if_neg hF]
  show (match pyLog (K / F) with
        | Except.error e => Except.error e
        | Except.ok k => ivOfK p T k) = _
  unfold pyLog
  rw [if_neg (not_le.mpr hKF)]
  show ivOfK p T (Real.log (K / F)) = _
  unfold ivOfK pyDiv
  rw [if_neg hT]
  show pySqrt (max 1e-12 (svi_w (Real.log (K / F)) p) / T) = _
  unfold pySqrt
  rw [if_neg hq]

theorem svi_w_pUnit (k : ℝ) : svi_w k pUnit = 1 := by
  simp [svi_w, pUnit]

theorem computeIV_ex : computeIV 100 1 pUnit 100 = Except.ok 1 := by
  have hm : max (1e-12 : ℝ) (svi_w (Real.log ((100 : ℝ) / 100)) pUnit) = 1 := by
    rw [svi_w_pUnit]
    exact max_eq_right (by norm_num)
  rw [computeIV_eval 100 1 pUnit 100 (by norm_num) (by norm_num) (by norm_num)
      (by rw [hm]; norm_num)]
  rw [hm]
  norm_num

theorem getForwardF_ex : getForwardF baseEx = Except.ok 100 := by
  show (if (100 : ℝ) = 0 then Except.error PyErr.keyError else Except.ok 100) = Except.ok 100
  rw [if_neg (by norm_num : ¬(100 : ℝ) = 0)]

theorem run_ex : generate_tenor stemEx baseEx 365 = Except.ok fixEx := by
  have h365 : tenorToYears 365 = 1 := by unfold tenorToYears; norm_num
  have hIVs : computeIVs 100 1 pUnit [100] = Except.ok [1] := by
    unfold computeIVs
    rw [computeIV_ex]
    rfl
  unfold generate_tenor
  rw [h365, getForwardF_ex]
  show (match getStrikes baseEx with
        | Except.error e => Except.error e
        | Except.ok Ks =>
            match getParams baseEx with
            | Except.error e => Except.error e
            | Except.ok p =>
                match computeIVs 100 1 p Ks with
                | Except.error e => Except.error e
                | Except.ok ivs =>
                    Except.ok {
                      fixtureId := mkFixtureId stemEx 365
                      forward := 100
                      T := 1
                      strikes := Ks
                      svi_params := p
                      ivs := ivs
                      df := baseEx.df.getD 1 }) = Except.ok fixEx
  show (match computeIVs 100 1 pUnit [100] with
        | Except.error e => Except.error e
        | Except.ok ivs =>
            Except.ok {
              fixtureId := mkFixtureId stemEx 365
              forward := 100
              T := 1
              strikes := [100]
              svi_params := pUnit
              ivs := ivs
              df := baseEx.df.getD 1 }) = Except.ok fixEx
  rw [hIVs]
  rfl

/-- Witness for `generate_tenor_parallel`: the example base has one strike
and the generated fixture carries it over with one aligned implied vol. -/
theorem generate_tenor_parallel_witness :
    BaseResult.strikes baseEx = some (Fixture.strikes fixEx) ∧
    (Fixture.ivs fixEx).length = (Fixture.strikes fixEx).length :=
  ⟨(generate_tenor_parallel stemEx baseEx 365 fixEx run_ex).1,
   (generate_tenor_parallel stemEx baseEx 365 fixEx run_ex).2.1⟩

/-! ### C8 -/

/-- C8: every generated fixture's `T` field equals the requested tenor in
days divided by 365, and a tenor of 365 days gives exactly `T = 1`. -/
theorem generate_tenor_T (stem : List Char) (base : BaseResult) (d : ℤ) (out : Fixture)
    (h : generate_tenor stem base d = Except.ok out) :
    out.T = (d : ℝ) / 365 ∧ tenorToYears 365 = 1 := by
  obtain ⟨F, Ks, p, ivs, _, _, _, _, hout⟩ := generate_tenor_ok stem base d out h
  subst hout
  exact ⟨rfl, by unfold tenorToYears; norm_num⟩

/-- Witness for `generate_tenor_T` on the tenor-365 example run. -/
theorem generate_tenor_T_witness :
    Fixture.T fixEx = ((365 : ℤ) : ℝ) / 365 ∧ tenorToYears 365 = 1 :=
  generate_tenor_T stemEx baseEx 365 fixEx run_ex

/-! ### C4 -/

/-- C4: with both `svi_params` and `svi` absent, the run for the tenor
aborts (raises) before the output record is produced, whatever the other
fields hold. -/
theorem missing_params_aborts (stem : List Char) (base : BaseResult) (d : ℤ)
    (h1 : base.svi_params = none) (h2 : base.svi = none) :
    exceptIsOk (generate_tenor stem base d) = false := by
  have hp : getParams base = Except.error PyErr.typeError := by
    unfold getParams
    rw [h1, h2]
  unfold generate_tenor
  cases hF : getForwardF base
  · rfl
  · cases hK : getStrikes base
    · rfl
    · rw [hp]
      rfl

/-- Witness for `missing_params_aborts`: a base with forward and strikes
but no curve-parameter record under either key. -/
theorem missing_params_aborts_witness :
    exceptIsOk (generate_tenor stemEx ⟨some 100, none, some [100], none, none, none⟩ 30) =
      false :=
  missing_params_aborts stemEx ⟨some 100, none, some [100], none, none, none⟩ 30 rfl rfl

/-! ### C5 -/

/-- The base record refuting C5 as stated: `forward` is present with the
numeric value `0`, `F` is absent, and the curve parameters are present. -/
def baseZeroFwd : BaseResult := ⟨some 0, none, some [100], some pUnit, none, none⟩

/-- C5 fails as stated: `forward` is present with a numeric value (`0.0`),
yet the extraction raises `KeyError` instead of succeeding, because Python's
`or` treats the float `0.0` as falsy and falls through to the absent `F`. -/
theorem dual_key_lookup_cex :
    BaseResult.forward baseZeroFwd = some 0 ∧
    getForwardF baseZeroFwd = Except.error PyErr.keyError := by
  refine ⟨rfl, ?_⟩
  show (if (0 : ℝ) = 0 then Except.error PyErr.keyError else Except.ok 0) =
    Except.error PyErr.keyError
  rw [if_pos rfl]

/-- C5 amended: the forward is taken from `forward` when that key is
present with a nonzero value; when `forward` is absent or holds `0.0`, it
is taken from `F`, which must then be present; the curve parameters are
taken from `svi_params` when present, else from `svi`. -/
theorem dual_key_lookup (base : BaseResult) (v w : ℝ) (p : SviParams) :
    (base.forward = some v → v ≠ 0 → getForwardF base = Except.ok v) ∧
    ((base.forward = none ∨ base.forward = some 0) → base.F = some w →
      getForwardF base = Except.ok w) ∧
    (base.svi_params = some p → getParams base = Except.ok p) ∧
    (base.svi_params = none → base.svi = some p → getParams base = Except.ok p) := by
  refine ⟨?_, ?_, ?_, ?_⟩
  · intro hv hne
    unfold getForwardF
    rw [hv]
    exact if_neg hne
  · intro hfwd hF
    unfold getForwardF
    rcases hfwd with hfwd | hfwd <;> rw [hfwd, hF]
    show (if (0 : ℝ) = 0 then Except.ok w else Except.ok 0) = Except.ok w
    rw [if_pos rfl]
  · intro hp
    unfold getParams
    rw [hp]
  · intro hp hs
    unfold getParams
    rw [hp, hs]

/-- Witness for `dual_key_lookup`: on the example base, `forward` (100) and
`svi_params` are used. -/
theorem dual_key_lookup_witness :
    getForwardF baseEx = Except.ok 100 ∧ getParams baseEx = Except.ok pUnit :=
  ⟨(dual_key_lookup baseEx 100 0 pUnit).1 rfl (by norm_num),
   (dual_key_lookup baseEx 100 0 pUnit).2.2.1 rfl⟩

/-! ### C7 -/

/-- C7 fails as stated: `str.replace` removes every occurrence of
`"_result"`, not only a trailing suffix, so a stem whose prefix also
contains `"_result"` does not carry that prefix over unchanged. -/
theorem mkFixtureId_cex :
    mkFixtureId (String.data "x_result_y_result") 14 ≠
      String.data "x_result_y" ++ syntheticTag 14 ∧
    mkFixtureId (String.data "x_result_y_result") 14 =
      String.data "x_y" ++ syntheticTag 14 := by
  exact ⟨by decide, by decide⟩

theorem isPrefixOf_self (l : List Char) : l.isPrefixOf l = true := by
  induction l with
  | nil => rfl
  | cons c cs ih => simp [List.isPrefixOf, ih]

theorem replaceAux_strip (c0 : Char) (pt : List Char) :
    ∀ (pre : List Char) (fuel : Nat), (pre ++ (c0 :: pt)).length ≤ fuel →
      (∀ i, i < pre.length →
        (c0 :: pt).isPrefixOf (List.drop i (pre ++ (c0 :: pt))) = false) →
      replaceAux (c0 :: pt) [] fuel (pre ++ (c0 :: pt)) = pre
  | [], fuel, hfuel, _ => by
      cases fuel with
      | zero => simp at hfuel
      | succ f =>
          rw [List.nil_append]
          unfold replaceAux
          rw [if_pos (isPrefixOf_self (c0 :: pt))]
          rw [List.nil_append, List.drop_length]
          exact replaceAux_nil _ _ f
  | b :: pre, fuel, hfuel, hocc => by
      cases fuel with
      | zero => simp at hfuel
      | succ f =>
          have h0 : (c0 :: pt).isPrefixOf (b :: (pre ++ (c0 :: pt))) = false := by
            have h := hocc 0 (Nat.succ_pos _)
            rw [List.drop_zero, List.cons_append] at h
            exact h
          have hfuel' : (pre ++ (c0 :: pt)).length ≤ f := by
            rw [List.cons_append, List.length_cons] at hfuel
            exact Nat.le_of_succ_le_succ hfuel
          have hocc' : ∀ i, i < pre.length →
              (c0 :: pt).isPrefixOf (List.drop i (pre ++ (c0 :: pt))) = false := by
            intro i hi
            have h := hocc (i + 1) (Nat.succ_lt_succ hi)
            rw [List.cons_append, List.drop_succ_cons] at h
            exact h
          rw [List.cons_append]
          unfold replaceAux
          rw [if_neg (by rw [h0]; simp)]
          rw [replaceAux_strip c0 pt pre f hfuel' hocc']

/-- C7 amended: the identifier is the stem with every occurrence of
`"_result"` deleted, then the synthetic-tenor tag appended; when
`"_result"` occurs only as the trailing suffix, this strips the suffix and
carries the prefix over unchanged. -/
theorem mkFixtureId_strips_suffix (pre : List Char) (d : ℤ)
    (h : ∀ i, i < pre.length →
      patResult.isPrefixOf (List.drop i (pre ++ patResult)) = false) :
    mkFixtureId (pre ++ patResult) d = pre ++ syntheticTag d := by
  unfold mkFixtureId pyReplace
  rw [show patResult = '_' :: String.data "result" from rfl] at h ⊢
  rw [replaceAux_strip '_' (String.data "result") pre
      (pre ++ ('_' :: String.data "result")).length le_rfl h]

/-- Witness for `mkFixtureId_strips_suffix` on the stem `btc_result`. -/
theorem mkFixtureId_strips_suffix_witness :
    mkFixtureId (String.data "btc" ++ patResult) 14 =
      String.data "btc" ++ syntheticTag 14 :=
  mkFixtureId_strips_suffix (String.data "btc") 14 (by decide)

/-! ### C10 -/

/-- A base record with an empty strike list and all other fields valid. -/
def baseNoStrikes : BaseResult := ⟨some 100, none, some [], some pUnit, none, none⟩

/-- The fixture the script writes for `baseNoStrikes` at tenor 0. -/
def fixNoStrikes : Fixture := ⟨String.data "btc_synthetic_0d", 100, 0, [], pUnit, [], 1⟩

/-- C10 fails as stated: with an empty strike list the loop body never
runs, so no division by the zero time-to-expiry happens, the run with
`tenor_days = 0` succeeds, and a fixture file (with `T = 0` and empty
`ivs`) is written. -/
theorem tenor_zero_cex :
    generate_tenor stemEx baseNoStrikes 0 = Except.ok fixNoStrikes := by
  have h0 : tenorToYears 0 = 0 := by unfold tenorToYears; norm_num
  have hF : getForwardF baseNoStrikes = Except.ok 100 := by
    show (if (100 : ℝ) = 0 then Except.error PyErr.keyError else Except.ok 100) =
      Except.ok 100
    rw [if_neg (by norm_num : ¬(100 : ℝ) = 0)]
  unfold generate_tenor
  rw [h0, hF]
  rfl

theorem generate_tenor_err (stem : List Char) (base : BaseResult) (d : ℤ)
    (F : ℝ) (Ks : List ℝ) (p : SviParams) (e : PyErr)
    (hF : getForwardF base = Except.ok F) (hKs : getStrikes base = Except.ok Ks)
    (hp : getParams base = Except.ok p)
    (hIVs : computeIVs F (tenorToYears d) p Ks = Except.error e) :
    generate_tenor stem base d = Except.error e := by
  unfold generate_tenor
  rw [hF, hKs, hp]
  show (match computeIVs F (tenorToYears d) p Ks with
        | Except.error e => Except.error e
        | Except.ok ivs =>
            Except.ok
              (Fixture.mk (mkFixtureId stem d) F (tenorToYears d) Ks p ivs
                (base.df.getD 1))) = Except.error e
  rw [hIVs]

/-- C10 amended: when the base record is well formed with at least one
strike (positive strike and forward), the tenor is not validated: tenor 0
reaches the per-strike division by the zero time-to-expiry and raises
`ZeroDivisionError`, and any negative tenor makes the square-root argument
negative and raises a math domain error; in both cases the run aborts
before the output file is written.  (With an empty strike list the loop
never runs and the file is written even for tenor 0.) -/
theorem tenor_not_validated (stem : List Char) (base : BaseResult)
    (F K : ℝ) (Ks : List ℝ) (p : SviParams)
    (hF : getForwardF base = Except.ok F) (hFpos : 0 < F)
    (hKs : getStrikes base = Except.ok (K :: Ks)) (hKpos : 0 < K)
    (hp : getParams base = Except.ok p) :
    generate_tenor stem base 0 = Except.error PyErr.zeroDivisionError ∧
    ∀ d : ℤ, d < 0 → generate_tenor stem base d = Except.error PyErr.domainError := by
  have hKF : pyDiv K F = Except.ok (K / F) := by
    unfold pyDiv
    rw [if_neg (ne_of_gt hFpos)]
  have hlog : pyLog (K / F) = Except.ok (Real.log (K / F)) := by
    unfold pyLog
    rw [if_neg (not_le.mpr (div_pos hKpos hFpos))]
  have hwpos : (0 : ℝ) < max 1e-12 (svi_w (Real.log (K / F)) p) :=
    lt_of_lt_of_le (by norm_num) (le_max_left _ _)
  have hIV : ∀ T : ℝ, computeIV F T p K = ivOfK p T (Real.log (K / F)) := by
    intro T
    unfold computeIV
    rw [hKF]
    show (match pyLog (K / F) with
          | Except.error e => Except.error e
          | Except.ok k => ivOfK p T k) = ivOfK p T (Real.log (K / F))
    rw [hlog]
  have hlift : ∀ (T : ℝ) (e : PyErr), computeIV F T p K = Except.error e →
      computeIVs F T p (K :: Ks) = Except.error e := by
    intro T e he
    unfold computeIVs
    rw [he]
  constructor
  · have h0 : tenorToYears 0 = 0 := by unfold tenorToYears; norm_num
    have hz : ivOfK p (tenorToYears 0) (Real.log (K / F)) =
        Except.error PyErr.zeroDivisionError := by
      unfold ivOfK pyDiv
      rw [if_pos h0]
    exact generate_tenor_err stem base 0 F (K :: Ks) p PyErr.zeroDivisionError hF hKs hp
      (hlift (tenorToYears 0) PyErr.zeroDivisionError ((hIV (tenorToYears 0)).trans hz))
  · intro d hd
    have hT : tenorToYears d < 0 :=
      div_neg_of_neg_of_pos (by exact_mod_cast hd) (by norm_num)
    have hneg : ivOfK p (tenorToYears d) (Real.log (K / F)) =
        Except.error PyErr.domainError := by
      unfold ivOfK pyDiv
      rw [if_neg (ne_of_lt hT)]
      show pySqrt (max 1e-12 (svi_w (Real.log (K / F)) p) / tenorToYears d) =
        Except.error PyErr.domainError
      unfold pySqrt
      rw [if_pos (div_neg_of_pos_of_neg hwpos hT)]
    exact generate_tenor_err stem base d F (K :: Ks) p PyErr.domainError hF hKs hp
      (hlift (tenorToYears d) PyErr.domainError ((hIV (tenorToYears d)).trans hneg))

/-- Witness for `tenor_not_validated` on the example base: tenor 0 raises
`ZeroDivisionError`, tenor `-7` raises a math domain error. -/
theorem tenor_not_validated_witness :
    generate_tenor stemEx baseEx 0 = Except.error PyErr.zeroDivisionError ∧
    generate_tenor stemEx baseEx (-7) = Except.error PyErr.domainError :=
  ⟨(tenor_not_validated stemEx baseEx 100 100 [] pUnit getForwardF_ex (by norm_num) rfl
      (by norm_num) rfl).1,
   (tenor_not_validated stemEx baseEx 100 100 [] pUnit getForwardF_ex (by norm_num) rfl
      (by norm_num) rfl).2 (-7) (by norm_num)⟩
